import Mathlib

/-!
Verification of the multi-source shelter aggregation core of `shelter_bot.py`.

The shallow embedding below translates the GIS / aggregation part of the
source (lines 380-939): the haversine distance, the proximity–priority
deduplication, the four source connectors and the `fetch_shelters`
aggregation pipeline.  Python floats are modelled as rationals (`ℚ`) in
record fields and as reals (`ℝ`) inside the transcendental `haversine`;
Python dicts parsed from network JSON are modelled by the `JsonV` type, and
Python exceptions by `Except PyErr`.
-/

namespace ShelterBot

/-- A JSON-like value, modelling the payloads Python obtains from `r.json()`. -/
inductive JsonV where
  | null : JsonV
  | bool : Bool → JsonV
  | num : ℚ → JsonV
  | str : String → JsonV
  | arr : List JsonV → JsonV
  | obj : List (String × JsonV) → JsonV

/-- A normalized facility record, the Python dict built by each connector.
`lat`/`lon` are rationals (Python floats), `distance` the rounded integer
metre count, `source` one of "ta" / "muni" / "gov" / "osm". -/
structure Shelter where
  id : String
  lat : ℚ
  lon : ℚ
  address : String
  name : String
  type_raw : JsonV
  hours : String
  phone : String
  notes : String
  distance : ℤ
  source : String

/-- `math.radians`. -/
noncomputable def radians (d : ℝ) : ℝ := d * (Real.pi / 180)

/-- `math.atan2` (standard real-analysis definition).  In `haversine` it is
only ever applied with `0 ≤ y` and `0 < x`, i.e. in its first branch. -/
noncomputable def atan2 (y x : ℝ) : ℝ :=
  if 0 < x then Real.arctan (y / x)
  else if x < 0 then
    (if 0 ≤ y then Real.arctan (y / x) + Real.pi else Real.arctan (y / x) - Real.pi)
  else
    (if 0 < y then Real.pi / 2 else if y < 0 then -(Real.pi / 2) else 0)

/-- The intermediate value `a` of `haversine` (the local variable `a` in
shelter_bot.py line 384). -/
noncomputable def havA (lat1 lon1 lat2 lon2 : ℝ) : ℝ :=
  Real.sin (radians (lat2 - lat1) / 2) ^ 2 +
    Real.cos (radians lat1) * Real.cos (radians lat2) *
      Real.sin (radians (lon2 - lon1) / 2) ^ 2

/-- Great-circle distance: shallow embedding of `haversine`
(shelter_bot.py lines 380-385), on a sphere of radius 6371000 m. -/
noncomputable def haversine (lat1 lon1 lat2 lon2 : ℝ) : ℝ :=
  6371000 * 2 *
    atan2 (Real.sqrt (havA lat1 lon1 lat2 lon2))
      (Real.sqrt (1 - havA lat1 lon1 lat2 lon2))

/-- The distance the dedup scan computes between an incoming record `s` and
an accepted record `e`: `haversine(s["lat"], s["lon"], e["lat"], e["lon"])`. -/
noncomputable def shelterDist (s e : Shelter) : ℝ :=
  haversine (s.lat : ℝ) (s.lon : ℝ) (e.lat : ℝ) (e.lon : ℝ)

/-- Source priority used by `deduplicate_shelters`:
`{"ta": 4, "muni": 3, "gov": 2, "osm": 1}` with `.get(..., 0)`. -/
def priority (src : String) : ℕ :=
  if src = "ta" then 4
  else if src = "muni" then 3
  else if src = "gov" then 2
  else if src = "osm" then 1
  else 0

/-- One step of the linear dedup scan of `deduplicate_shelters`
(shelter_bot.py lines 881-891): walk the accepted list; at the first
accepted record within `threshold` replace it when the incoming record has
strictly higher priority and stop; if none is within `threshold`, append
the incoming record at the end. -/
noncomputable def insertShelter (threshold : ℝ) (s : Shelter) : List Shelter → List Shelter
  | [] => [s]
  | e :: rest =>
    if shelterDist s e < threshold then
      (if priority e.source < priority s.source then s else e) :: rest
    else
      e :: insertShelter threshold s rest

/-- Shallow embedding of `deduplicate_shelters` (shelter_bot.py lines
876-892); the call sites use the default `threshold_m=50`. -/
noncomputable def deduplicate_shelters (shelters : List Shelter) (threshold_m : ℝ) : List Shelter :=
  shelters.foldl (fun result s => insertShelter threshold_m s result) []

/-! ### Basic properties of `haversine` -/

lemma havA_self (lat lon : ℝ) : havA lat lon lat lon = 0 := by
  unfold havA radians
  simp

lemma haversine_self (lat lon : ℝ) : haversine lat lon lat lon = 0 := by
  unfold haversine atan2
  rw [havA_self]
  simp

lemma havA_comm (a b c d : ℝ) : havA a b c d = havA c d a b := by
  unfold havA radians
  have e1 : (a - c) * (Real.pi / 180) / 2 = -((c - a) * (Real.pi / 180) / 2) := by ring
  have e2 : (b - d) * (Real.pi / 180) / 2 = -((d - b) * (Real.pi / 180) / 2) := by ring
  rw [e1, e2, Real.sin_neg, Real.sin_neg, neg_sq, neg_sq]
  ring

lemma haversine_comm (a b c d : ℝ) : haversine a b c d = haversine c d a b := by
  unfold haversine
  rw [havA_comm]

lemma shelterDist_comm (s e : Shelter) : shelterDist s e = shelterDist e s := by
  unfold shelterDist
  exact haversine_comm _ _ _ _

/-- On the equator the haversine formula evaluates to arc length:
for `l1 ≤ l2` with `l2 - l1 ≤ 1` degree,
`haversine 0 l1 0 l2 = 12742000 * ((l2 - l1) * π / 360)`. -/
lemma haversine_equator {l1 l2 : ℝ} (h0 : l1 ≤ l2) (hle : l2 - l1 ≤ 1) :
    haversine 0 l1 0 l2 = 12742000 * ((l2 - l1) * Real.pi / 360) := by
  have hπ := Real.pi_pos
  set t : ℝ := (l2 - l1) * Real.pi / 360 with ht
  have ht0 : 0 ≤ t := by
    have : 0 ≤ l2 - l1 := sub_nonneg.2 h0
    positivity
  have ht2 : t < Real.pi / 2 := by
    rw [ht]
    nlinarith
  have htpi : t ≤ Real.pi := by linarith
  have hA : havA 0 l1 0 l2 = Real.sin t ^ 2 := by
    unfold havA radians
    have z1 : (0 - 0 : ℝ) * (Real.pi / 180) / 2 = 0 := by ring
    have z2 : (0 : ℝ) * (Real.pi / 180) = 0 := by ring
    have z3 : (l2 - l1) * (Real.pi / 180) / 2 = t := by rw [ht]; ring
    rw [z1, z2, z3]
    simp
  have hsin : Real.sqrt (Real.sin t ^ 2) = Real.sin t :=
    Real.sqrt_sq (Real.sin_nonneg_of_nonneg_of_le_pi ht0 htpi)
  have hcospos : 0 < Real.cos t :=
    Real.cos_pos_of_mem_Ioo ⟨by linarith, ht2⟩
  have hcos2 : 1 - Real.sin t ^ 2 = Real.cos t ^ 2 := by
    have := Real.sin_sq_add_cos_sq t
    linarith
  have hcos : Real.sqrt (1 - Real.sin t ^ 2) = Real.cos t := by
    rw [hcos2]
    exact Real.sqrt_sq hcospos.le
  unfold haversine
  rw [hA, hsin, hcos]
  unfold atan2
  rw [if_pos hcospos, ← Real.tan_eq_sin_div_cos,
    Real.arctan_tan (by linarith) ht2]
  ring

/-- Two equatorial points whose longitudes differ by at most `0.00044`
degrees are closer than the 50 m dedup threshold. -/
lemma hav_lt_50 {l1 l2 : ℚ} (h0 : l1 ≤ l2) (h : l2 - l1 ≤ 0.00044) :
    haversine 0 (l1 : ℝ) 0 (l2 : ℝ) < 50 := by
  have h0' : (l1 : ℝ) ≤ (l2 : ℝ) := by exact_mod_cast h0
  have h' : (l2 : ℝ) - (l1 : ℝ) ≤ 0.00044 := by
    have : ((l2 - l1 : ℚ) : ℝ) ≤ ((0.00044 : ℚ) : ℝ) := by exact_mod_cast h
    push_cast at this
    norm_num at this ⊢
    linarith
  rw [haversine_equator h0' (by linarith)]
  have hd0 : (0 : ℝ) ≤ (l2 : ℝ) - (l1 : ℝ) := sub_nonneg.2 h0'
  nlinarith [Real.pi_lt_d2, Real.pi_gt_d2,
    mul_le_mul_of_nonneg_right h' Real.pi_pos.le,
    mul_lt_mul_of_pos_left Real.pi_lt_d2 (show (0 : ℝ) < 0.00044 by norm_num)]

/-- Two equatorial points whose longitudes differ by at least `0.00046`
degrees (and at most 1 degree) are not within the 50 m dedup threshold. -/
lemma hav_not_lt_50 {l1 l2 : ℚ} (h0 : 0.00046 ≤ l2 - l1) (h : l2 - l1 ≤ 1) :
    ¬ haversine 0 (l1 : ℝ) 0 (l2 : ℝ) < 50 := by
  have h0' : (0.00046 : ℝ) ≤ (l2 : ℝ) - (l1 : ℝ) := by
    have : ((0.00046 : ℚ) : ℝ) ≤ ((l2 - l1 : ℚ) : ℝ) := by exact_mod_cast h0
    push_cast at this
    norm_num at this ⊢
    linarith
  have h1' : (l2 : ℝ) - (l1 : ℝ) ≤ 1 := by
    have : ((l2 - l1 : ℚ) : ℝ) ≤ ((1 : ℚ) : ℝ) := by exact_mod_cast h
    push_cast at this
    linarith
  have hl : (l1 : ℝ) ≤ (l2 : ℝ) := by linarith
  rw [haversine_equator hl h1']
  push_neg
  nlinarith [Real.pi_gt_d2, Real.pi_lt_d2,
    mul_le_mul_of_nonneg_right h0' Real.pi_pos.le,
    mul_lt_mul_of_pos_left Real.pi_gt_d2 (show (0 : ℝ) < 0.00046 by norm_num)]

/-! ### Distance facts at Shelter level -/

lemma shelterDist_lt_50 {s e : Shelter} (hs : s.lat = 0) (he : e.lat = 0)
    (h0 : e.lon ≤ s.lon) (h : s.lon - e.lon ≤ 0.00044) : shelterDist s e < 50 := by
  unfold shelterDist
  rw [hs, he, haversine_comm]
  have hh := @hav_lt_50 e.lon s.lon h0 h
  simpa using hh

lemma shelterDist_lt_50' {s e : Shelter} (hs : s.lat = 0) (he : e.lat = 0)
    (h0 : s.lon ≤ e.lon) (h : e.lon - s.lon ≤ 0.00044) : shelterDist s e < 50 := by
  rw [shelterDist_comm]
  exact shelterDist_lt_50 he hs h0 h

lemma shelterDist_not_lt_50 {s e : Shelter} (hs : s.lat = 0) (he : e.lat = 0)
    (h0 : 0.00046 ≤ s.lon - e.lon) (h : s.lon - e.lon ≤ 1) : ¬ shelterDist s e < 50 := by
  unfold shelterDist
  rw [hs, he, haversine_comm]
  have hh := @hav_not_lt_50 e.lon s.lon h0 h
  simpa using hh

lemma shelterDist_not_lt_50' {s e : Shelter} (hs : s.lat = 0) (he : e.lat = 0)
    (h0 : 0.00046 ≤ e.lon - s.lon) (h : e.lon - s.lon ≤ 1) : ¬ shelterDist s e < 50 := by
  rw [shelterDist_comm]
  exact shelterDist_not_lt_50 he hs h0 h

/-! ### Dedup on pairwise-separated lists -/

lemma insertShelter_nil (θ : ℝ) (s : Shelter) : insertShelter θ s [] = [s] := rfl

lemma insertShelter_of_far (θ : ℝ) {s : Shelter} {acc : List Shelter}
    (h : ∀ e ∈ acc, ¬ shelterDist s e < θ) : insertShelter θ s acc = acc ++ [s] := by
  induction acc with
  | nil => rfl
  | cons e rest ih =>
    simp only [insertShelter]
    rw [if_neg (h e (List.mem_cons_self e rest)),
      ih (fun x hx => h x (List.mem_cons_of_mem e hx))]
    rfl

lemma foldl_dedup_of_pairwise (θ : ℝ) :
    ∀ (l acc : List Shelter),
      (∀ s ∈ l, ∀ e ∈ acc, ¬ shelterDist s e < θ) →
      l.Pairwise (fun x y => ¬ shelterDist y x < θ) →
      List.foldl (fun result s => insertShelter θ s result) acc l = acc ++ l := by
  intro l
  induction l with
  | nil => intro acc _ _; simp
  | cons s rest ih =>
    intro acc h hp
    have hhead : insertShelter θ s acc = acc ++ [s] :=
      insertShelter_of_far θ (h s (List.mem_cons_self s rest))
    have hrest : ∀ x ∈ rest, ∀ e ∈ acc ++ [s], ¬ shelterDist x e < θ := by
      intro x hx e he
      rcases List.mem_append.mp he with hacc | hs
      · exact h x (List.mem_cons_of_mem s hx) e hacc
      · have hes : e = s := List.mem_singleton.mp hs
        subst hes
        exact (List.pairwise_cons.mp hp).1 x hx
    have := ih (acc ++ [s]) hrest (List.pairwise_cons.mp hp).2
    simp only [List.foldl_cons, hhead, this, List.append_assoc, List.singleton_append]

lemma dedup_of_pairwise {l : List Shelter}
    (hp : l.Pairwise (fun x y => ¬ shelterDist y x < 50)) :
    deduplicate_shelters l 50 = l := by
  unfold deduplicate_shelters
  have := foldl_dedup_of_pairwise 50 l [] (by simp) hp
  simpa using this

/-! ### Concrete records for counterexamples and witnesses.
All sit on the equator; their pairwise great-circle distances follow from
`haversine_equator` (gap 0.00044 degrees: about 49 m; gap 0.00046 degrees
or more: above 51 m). -/

/-- A minimal equatorial shelter record. -/
def testShelter (i : String) (lon : ℚ) (dist : ℤ) (src : String) : Shelter :=
  ⟨i, 0, lon, "", "", JsonV.str ("bomb_shelter"), "", "", "", dist, src⟩

def ceOsm : Shelter := testShelter ("osm:node:1") 0 40 ("osm")

def ceMuni : Shelter := testShelter ("muni:X:1") 0.00088 98 ("muni")

def ceTa : Shelter := testShelter ("ta:1") 0.00044 49 ("ta")

def wHi : Shelter := testShelter ("ta:w") 0 10 ("ta")

def wLo : Shelter := testShelter ("osm:node:w") 0.0003 35 ("osm")

lemma dMuniOsm : ¬ shelterDist ceMuni ceOsm < 50 :=
  shelterDist_not_lt_50 rfl rfl (by norm_num [ceMuni, ceOsm, testShelter])
    (by norm_num [ceMuni, ceOsm, testShelter])

lemma dTaOsm : shelterDist ceTa ceOsm < 50 :=
  shelterDist_lt_50 rfl rfl (by norm_num [ceTa, ceOsm, testShelter])
    (by norm_num [ceTa, ceOsm, testShelter])

lemma dMuniTa : shelterDist ceMuni ceTa < 50 :=
  shelterDist_lt_50 rfl rfl (by norm_num [ceMuni, ceTa, testShelter])
    (by norm_num [ceMuni, ceTa, testShelter])

lemma dTaMuni : shelterDist ceTa ceMuni < 50 :=
  shelterDist_lt_50' rfl rfl (by norm_num [ceMuni, ceTa, testShelter])
    (by norm_num [ceMuni, ceTa, testShelter])

/-- The linear scan keeps both `ceTa` and `ceMuni` (44 m apart): `ceMuni`
is appended (89 m from `ceOsm`), then `ceTa` replaces `ceOsm` (44 m away,
higher priority) without being compared to `ceMuni`. -/
lemma dedupTriple_eq :
    deduplicate_shelters [ceOsm, ceMuni, ceTa] 50 = [ceTa, ceMuni] := by
  have e1 : insertShelter 50 ceOsm [] = [ceOsm] := rfl
  have e2 : insertShelter 50 ceMuni [ceOsm] = [ceOsm, ceMuni] := by
    simp only [insertShelter]
    rw [if_neg dMuniOsm]
  have e3 : insertShelter 50 ceTa [ceOsm, ceMuni] = [ceTa, ceMuni] := by
    have hp : priority ceOsm.source < priority ceTa.source := by decide
    simp only [insertShelter]
    rw [if_pos dTaOsm, if_pos hp]
  simp only [deduplicate_shelters, List.foldl_cons, List.foldl_nil, e1, e2, e3]

lemma dedupPair_eq : deduplicate_shelters [ceTa, ceMuni] 50 = [ceTa] := by
  have e2 : insertShelter 50 ceMuni [ceTa] = [ceTa] := by
    have hp : ¬ priority ceTa.source < priority ceMuni.source := by decide
    simp only [insertShelter]
    rw [if_pos dMuniTa, if_neg hp]
  simp only [deduplicate_shelters, List.foldl_cons, List.foldl_nil,
    insertShelter_nil, e2]

/-- C1 counterexample: `ceTa` (source "ta") and `ceMuni` (source "muni")
are within the 50 m threshold and have different priorities, yet running
`deduplicate_shelters` on a list containing both (together with the lower
priority `ceOsm` lying between them) retains BOTH of them, because the
linear scan matches each incoming record only against the FIRST accepted
record within 50 m. -/
theorem dedup_pair_priority_counterexample :
    shelterDist ceTa ceMuni < 50 ∧
      priority ceTa.source ≠ priority ceMuni.source ∧
      deduplicate_shelters [ceOsm, ceMuni, ceTa] 50 = [ceTa, ceMuni] :=
  ⟨dTaMuni, by decide, dedupTriple_eq⟩

/-- C1 (amended): for two records within the 50 m threshold whose sources
have strictly different priorities, deduplicating the two-element list
containing exactly those records retains exactly the higher-priority one,
in either input order.  (In the presence of a third record within 50 m of
one of them the property can fail, see the counterexample.) -/
theorem dedup_pair_priority_amended (a b : Shelter)
    (hd : shelterDist a b < 50) (hp : priority b.source < priority a.source) :
    deduplicate_shelters [a, b] 50 = [a] ∧ deduplicate_shelters [b, a] 50 = [a] := by
  have hd' : shelterDist b a < 50 := by rwa [shelterDist_comm] at hd
  constructor
  · have e2 : insertShelter 50 b [a] = [a] := by
      simp only [insertShelter]
      rw [if_pos hd', if_neg (Nat.lt_asymm hp)]
    simp only [deduplicate_shelters, List.foldl_cons, List.foldl_nil,
      insertShelter_nil, e2]
  · have e2 : insertShelter 50 a [b] = [a] := by
      simp only [insertShelter]
      rw [if_pos hd, if_pos hp]
    simp only [deduplicate_shelters, List.foldl_cons, List.foldl_nil,
      insertShelter_nil, e2]

/-- Witness for C1 (amended) at concrete records `wHi` ("ta", lon 0) and
`wLo` ("osm", lon 0.0003, about 33 m away). -/
theorem dedup_pair_priority_amended_witness :
    shelterDist wHi wLo < 50 ∧ priority wLo.source < priority wHi.source ∧
      deduplicate_shelters [wHi, wLo] 50 = [wHi] ∧
      deduplicate_shelters [wLo, wHi] 50 = [wHi] := by
  have hd : shelterDist wHi wLo < 50 :=
    shelterDist_lt_50' rfl rfl (by norm_num [wHi, wLo, testShelter])
      (by norm_num [wHi, wLo, testShelter])
  have hp : priority wLo.source < priority wHi.source := by decide
  exact ⟨hd, hp, (dedup_pair_priority_amended wHi wLo hd hp).1,
    (dedup_pair_priority_amended wHi wLo hd hp).2⟩

/-- C8 counterexample: `deduplicate_shelters` is not idempotent.  On
`[ceOsm, ceMuni, ceTa]` the first pass returns `[ceTa, ceMuni]`, which
still holds two records 44 m apart, and a second pass merges them. -/
theorem dedup_idempotent_counterexample :
    deduplicate_shelters (deduplicate_shelters [ceOsm, ceMuni, ceTa] 50) 50 ≠
      deduplicate_shelters [ceOsm, ceMuni, ceTa] 50 := by
  rw [dedupTriple_eq, dedupPair_eq]
  intro h
  have := congrArg List.length h
  simp at this

/-- C8 (amended): deduplication is idempotent on any input whose first
dedup output is pairwise separated by the 50 m threshold; in general a
replacement during the scan can leave two output records within the
threshold, and a second pass then shrinks the list further (see the
counterexample). -/
theorem dedup_idempotent_amended (l : List Shelter)
    (h : (deduplicate_shelters l 50).Pairwise (fun x y => ¬ shelterDist y x < 50)) :
    deduplicate_shelters (deduplicate_shelters l 50) 50 = deduplicate_shelters l 50 :=
  dedup_of_pairwise h

/-- Witness for C8 (amended) at the singleton input `[wHi]`. -/
theorem dedup_idempotent_amended_witness :
    (deduplicate_shelters [wHi] 50).Pairwise (fun x y => ¬ shelterDist y x < 50) ∧
      deduplicate_shelters (deduplicate_shelters [wHi] 50) 50 =
        deduplicate_shelters [wHi] 50 := by
  have h1 : deduplicate_shelters [wHi] 50 = [wHi] := rfl
  have hp : (deduplicate_shelters [wHi] 50).Pairwise
      (fun x y => ¬ shelterDist y x < 50) := by
    rw [h1]
    simp
  exact ⟨hp, dedup_idempotent_amended [wHi] hp⟩

/-! ### The aggregation pipeline `fetch_shelters` (lines 895-939)

The four connectors are abstracted by the lists they return for a given
requested radius (`fetch_shelters` only depends on those outputs); the
Tel-Aviv connector takes no radius in the source. -/

/-- Connector outputs, per requested radius. -/
structure Providers where
  municipal : ℕ → List Shelter
  govmap : ℕ → List Shelter
  osm : ℕ → List Shelter
  arcgis : List Shelter

def MAX_RESULTS : ℕ := 5

/-- `is_in_tel_aviv` with the `TA_BOUNDS` constants (lines 127, 388-391). -/
def is_in_tel_aviv (lat lon : ℚ) : Bool :=
  decide (32.03 ≤ lat) && decide (lat ≤ 32.15) &&
    decide (34.74 ≤ lon) && decide (lon ≤ 34.82)

/-- Step 4 of the pipeline: the Tel-Aviv ArcGIS list, fetched only when the
query coordinate is inside the TA bounds (lines 917-920). -/
def taShelters (P : Providers) (lat lon : ℚ) : List Shelter :=
  if is_in_tel_aviv lat lon then P.arcgis else []

/-- Step 1: the municipal connector invoked at 5000 m, filtered to the
2000 m base radius (lines 902-903). -/
def muniNear (P : Providers) : List Shelter :=
  (P.municipal 5000).filter (fun s => decide (s.distance ≤ 2000))

/-- Step 2: the GovMap connector invoked at 5000 m, filtered to
`base_radius + 1000` = 3000 m (lines 908-909). -/
def govNear (P : Providers) : List Shelter :=
  (P.govmap 5000).filter (fun s => decide (s.distance ≤ 2000 + 1000))

/-- The merged and deduplicated base-radius set (lines 922-924);
concatenation order TA, municipal, GovMap, OSM. -/
noncomputable def base_shelters (P : Providers) (lat lon : ℚ) : List Shelter :=
  deduplicate_shelters
    (taShelters P lat lon ++ muniNear P ++ govNear P ++ P.osm 2000) 50

/-- One body of the radius-expansion loop (lines 931-935): OSM re-fetched
at the expanded radius, municipal and GovMap wide results re-filtered. -/
noncomputable def expandIter (P : Providers) (lat lon : ℚ) (r : ℕ) : List Shelter :=
  deduplicate_shelters
    (taShelters P lat lon ++
      (P.municipal 5000).filter (fun s => decide (s.distance ≤ (r : ℤ))) ++
      (P.govmap 5000).filter (fun s => decide (s.distance ≤ (r : ℤ))) ++
      P.osm r) 50

/-- The progressive-expansion loop (lines 927-935), instrumented with the
list of radii at which an expansion iteration actually ran (each such
iteration issues a fresh OSM fetch at that radius). -/
noncomputable def fetch_loop (P : Providers) (lat lon : ℚ) :
    List ℕ → List Shelter → List Shelter × List ℕ
  | [], acc => (acc, [])
  | r :: rest, acc =>
    if 3 ≤ acc.length then (acc, [])
    else
      let out := fetch_loop P lat lon rest (expandIter P lat lon r)
      (out.1, r :: out.2)

/-- The sort key of line 937: `lambda x: x["distance"]`, ascending. -/
def distLe (a b : Shelter) : Bool := decide (a.distance ≤ b.distance)

/-- Shallow embedding of `fetch_shelters` (lines 895-939): base merge,
expansion loop over the radii 3000 and 5000, sort by distance, top 5. -/
noncomputable def fetch_shelters (P : Providers) (lat lon : ℚ) : List Shelter :=
  (((fetch_loop P lat lon [3000, 5000] (base_shelters P lat lon)).1).mergeSort
    distLe).take MAX_RESULTS

/-- C2: an expansion iteration at radius 3000 runs iff the deduplicated
base merge has fewer than 3 records; the iteration at 5000 runs iff
additionally the 3000 m iteration still produced fewer than 3 records;
and at most 2 extra iterations ever occur. -/
theorem radius_expansion_iff (P : Providers) (lat lon : ℚ) :
    ((3000 : ℕ) ∈ (fetch_loop P lat lon [3000, 5000] (base_shelters P lat lon)).2 ↔
      (base_shelters P lat lon).length < 3) ∧
    ((5000 : ℕ) ∈ (fetch_loop P lat lon [3000, 5000] (base_shelters P lat lon)).2 ↔
      ((base_shelters P lat lon).length < 3 ∧
        (expandIter P lat lon 3000).length < 3)) ∧
    (fetch_loop P lat lon [3000, 5000] (base_shelters P lat lon)).2.length ≤ 2 := by
  by_cases h1 : 3 ≤ (base_shelters P lat lon).length
  · have e : fetch_loop P lat lon [3000, 5000] (base_shelters P lat lon) =
        (base_shelters P lat lon, []) := by
      simp only [fetch_loop]
      rw [if_pos h1]
    refine ⟨?_, ?_, ?_⟩ <;> simp [e, Nat.not_lt.mpr h1]
  · have h1' : (base_shelters P lat lon).length < 3 := Nat.not_le.mp h1
    by_cases h2 : 3 ≤ (expandIter P lat lon 3000).length
    · have e : fetch_loop P lat lon [3000, 5000] (base_shelters P lat lon) =
          (expandIter P lat lon 3000, [3000]) := by
        simp only [fetch_loop]
        rw [if_neg h1, if_pos h2]
      refine ⟨?_, ?_, ?_⟩ <;> simp [e, h1', Nat.not_lt.mpr h2]
    · have h2' : (expandIter P lat lon 3000).length < 3 := Nat.not_le.mp h2
      have e : fetch_loop P lat lon [3000, 5000] (base_shelters P lat lon) =
          ((fetch_loop P lat lon [] (expandIter P lat lon 5000)).1, [3000, 5000]) := by
        simp only [fetch_loop]
        rw [if_neg h1, if_neg h2]
      refine ⟨?_, ?_, ?_⟩ <;> simp [e, h1', h2']

/-- C3: the list returned by `fetch_shelters` is sorted by the `distance`
field in ascending order and has length at most 5. -/
theorem fetch_shelters_sorted_truncated (P : Providers) (lat lon : ℚ) :
    List.Sorted (fun a b : Shelter => a.distance ≤ b.distance)
        (fetch_shelters P lat lon) ∧
      (fetch_shelters P lat lon).length ≤ 5 := by
  unfold fetch_shelters
  constructor
  · have htrans : ∀ a b c : Shelter, distLe a b → distLe b c → distLe a c := by
      intro a b c hab hbc
      simp only [distLe, decide_eq_true_eq] at *
      omega
    have htotal : ∀ a b : Shelter, distLe a b || distLe b a := by
      intro a b
      simp only [distLe, Bool.or_eq_true, decide_eq_true_eq]
      omega
    have hs := List.sorted_mergeSort htrans htotal
      ((fetch_loop P lat lon [3000, 5000] (base_shelters P lat lon)).1)
    have hs' : List.Pairwise (fun a b : Shelter => a.distance ≤ b.distance)
        (((fetch_loop P lat lon [3000, 5000] (base_shelters P lat lon)).1).mergeSort
          distLe) := by
      refine hs.imp ?_
      intro a b h
      simpa [distLe] using h
    exact hs'.sublist (List.take_sublist _ _)
  · exact le_trans (List.length_take_le _ _) (by norm_num [MAX_RESULTS])

/-! ### C6: how the wide GovMap output is filtered before the merge -/

/-- Modelled from the spec (section 4.4 step 2, as asserted by C6): the
national-search (GovMap) wide-radius output filtered to the same 2000 m
target radius as the municipal output. -/
def spec_govNear (P : Providers) : List Shelter :=
  (P.govmap 5000).filter (fun s => decide (s.distance ≤ 2000))

/-- Modelled from the spec: the base merge as C6 asserts it, with the
GovMap output filtered to the target radius; everything else as in
`base_shelters`. -/
noncomputable def spec_base_shelters (P : Providers) (lat lon : ℚ) : List Shelter :=
  deduplicate_shelters
    (taShelters P lat lon ++ muniNear P ++ spec_govNear P ++ P.osm 2000) 50

/-- Modelled from the spec: the pipeline as C6 asserts it. -/
noncomputable def spec_fetch_shelters (P : Providers) (lat lon : ℚ) : List Shelter :=
  (((fetch_loop P lat lon [3000, 5000] (spec_base_shelters P lat lon)).1).mergeSort
    distLe).take MAX_RESULTS

lemma shelter_ne_of_dist {a b : Shelter} (h : a.distance ≠ b.distance) : a ≠ b :=
  fun he => h (congrArg Shelter.distance he)

/-- Counterexample providers: three municipal records within 2000 m and one
GovMap record at distance 2500 m, all pairwise more than 50 m apart. -/
def m1 : Shelter := testShelter ("muni:A:1") 0 100 ("muni")

def m2 : Shelter := testShelter ("muni:A:2") 0.001 200 ("muni")

def m3 : Shelter := testShelter ("muni:A:3") 0.002 300 ("muni")

def g6 : Shelter := testShelter ("gov:6") 0.003 2500 ("gov")

def P6 : Providers := ⟨fun _ => [m1, m2, m3], fun _ => [g6], fun _ => [], []⟩

lemma P6_pairwise :
    List.Pairwise (fun x y => ¬ shelterDist y x < 50) [m1, m2, m3, g6] := by
  refine List.pairwise_cons.mpr ⟨?_, List.pairwise_cons.mpr ⟨?_,
    List.pairwise_cons.mpr ⟨?_, List.pairwise_singleton _ _⟩⟩⟩
  · intro y hy
    rcases List.mem_cons.mp hy with h | hy
    · subst h
      exact shelterDist_not_lt_50 rfl rfl (by norm_num [m1, m2, testShelter])
        (by norm_num [m1, m2, testShelter])
    rcases List.mem_cons.mp hy with h | hy
    · subst h
      exact shelterDist_not_lt_50 rfl rfl (by norm_num [m1, m3, testShelter])
        (by norm_num [m1, m3, testShelter])
    rcases List.mem_cons.mp hy with h | hy
    · subst h
      exact shelterDist_not_lt_50 rfl rfl (by norm_num [m1, g6, testShelter])
        (by norm_num [m1, g6, testShelter])
    · simp at hy
  · intro y hy
    rcases List.mem_cons.mp hy with h | hy
    · subst h
      exact shelterDist_not_lt_50 rfl rfl (by norm_num [m2, m3, testShelter])
        (by norm_num [m2, m3, testShelter])
    rcases List.mem_cons.mp hy with h | hy
    · subst h
      exact shelterDist_not_lt_50 rfl rfl (by norm_num [m2, g6, testShelter])
        (by norm_num [m2, g6, testShelter])
    · simp at hy
  · intro y hy
    rcases List.mem_cons.mp hy with h | hy
    · subst h
      exact shelterDist_not_lt_50 rfl rfl (by norm_num [m3, g6, testShelter])
        (by norm_num [m3, g6, testShelter])
    · simp at hy

lemma P6_base : base_shelters P6 0 0 = [m1, m2, m3, g6] := by
  have hta : taShelters P6 0 0 = [] := by
    simp [taShelters, is_in_tel_aviv]
    intro h
    norm_num at h
  have hmuni : muniNear P6 = [m1, m2, m3] := by
    unfold muniNear P6
    rw [List.filter_eq_self.mpr]
    intro a ha
    fin_cases ha <;> norm_num [m1, m2, m3, testShelter]
  have hgov : govNear P6 = [g6] := by
    unfold govNear P6
    rw [List.filter_eq_self.mpr]
    intro a ha
    fin_cases ha <;> norm_num [g6, testShelter]
  unfold base_shelters
  rw [hta, hmuni, hgov]
  show deduplicate_shelters ([] ++ [m1, m2, m3] ++ [g6] ++ []) 50 = _
  rw [show ([] ++ [m1, m2, m3] ++ [g6] ++ [] : List Shelter) = [m1, m2, m3, g6]
    from by simp]
  exact dedup_of_pairwise P6_pairwise

lemma P6_spec_base : spec_base_shelters P6 0 0 = [m1, m2, m3] := by
  have hta : taShelters P6 0 0 = [] := by
    simp [taShelters, is_in_tel_aviv]
    intro h
    norm_num at h
  have hmuni : muniNear P6 = [m1, m2, m3] := by
    unfold muniNear P6
    rw [List.filter_eq_self.mpr]
    intro a ha
    fin_cases ha <;> norm_num [m1, m2, m3, testShelter]
  have hgov : spec_govNear P6 = [] := by
    unfold spec_govNear P6
    rw [List.filter_eq_nil_iff.mpr]
    intro a ha
    fin_cases ha <;> norm_num [g6, testShelter]
  unfold spec_base_shelters
  rw [hta, hmuni, hgov]
  show deduplicate_shelters ([] ++ [m1, m2, m3] ++ [] ++ []) 50 = _
  rw [show ([] ++ [m1, m2, m3] ++ [] ++ [] : List Shelter) = [m1, m2, m3]
    from by simp]
  exact dedup_of_pairwise (P6_pairwise.sublist (by simp))

lemma P6_fetch : fetch_shelters P6 0 0 = [m1, m2, m3, g6] := by
  unfold fetch_shelters
  rw [P6_base]
  have hloop : fetch_loop P6 0 0 [3000, 5000] [m1, m2, m3, g6] =
      ([m1, m2, m3, g6], []) := by
    simp only [fetch_loop]
    rw [if_pos (by norm_num)]
  rw [hloop]
  have hsorted : List.Pairwise (fun a b : Shelter => distLe a b = true)
      [m1, m2, m3, g6] := by
    refine List.pairwise_cons.mpr ⟨?_, List.pairwise_cons.mpr ⟨?_,
      List.pairwise_cons.mpr ⟨?_, List.pairwise_singleton _ _⟩⟩⟩ <;>
      intro y hy <;> fin_cases hy <;> decide
  rw [List.mergeSort_of_sorted hsorted]
  exact List.take_of_length_le (by norm_num [MAX_RESULTS])

lemma P6_spec_fetch : spec_fetch_shelters P6 0 0 = [m1, m2, m3] := by
  unfold spec_fetch_shelters
  rw [P6_spec_base]
  have hloop : fetch_loop P6 0 0 [3000, 5000] [m1, m2, m3] =
      ([m1, m2, m3], []) := by
    simp only [fetch_loop]
    rw [if_pos (by norm_num)]
  rw [hloop]
  have hsorted : List.Pairwise (fun a b : Shelter => distLe a b = true)
      [m1, m2, m3] := by
    refine List.pairwise_cons.mpr ⟨?_, List.pairwise_cons.mpr ⟨?_,
      List.pairwise_singleton _ _⟩⟩ <;>
      intro y hy <;> fin_cases hy <;> decide
  rw [List.mergeSort_of_sorted hsorted]
  exact List.take_of_length_le (by norm_num [MAX_RESULTS])

/-- C6 counterexample: the GovMap record `g6` at distance 2500 m — beyond
the 2000 m target radius — survives the base-stage filter of the real
pipeline (which filters GovMap output to `base_radius + 1000` = 3000 m,
line 909) and reaches the final output, whereas the pipeline described by
the claim (GovMap filtered to the target radius, `spec_fetch_shelters`)
drops it. -/
theorem govmap_filter_radius_counterexample :
    (2000 : ℤ) < g6.distance ∧ g6 ∈ fetch_shelters P6 0 0 ∧
      g6 ∉ spec_fetch_shelters P6 0 0 := by
  refine ⟨by norm_num [g6, testShelter], ?_, ?_⟩
  · rw [P6_fetch]
    simp
  · rw [P6_spec_fetch]
    have h1 : g6 ≠ m1 := shelter_ne_of_dist (by norm_num [g6, m1, testShelter])
    have h2 : g6 ≠ m2 := shelter_ne_of_dist (by norm_num [g6, m2, testShelter])
    have h3 : g6 ≠ m3 := shelter_ne_of_dist (by norm_num [g6, m3, testShelter])
    simp [h1, h2, h3]

/-- C6 (amended): in `fetch_shelters` the GovMap connector is invoked at
the wide 5000 m radius, but its output is filtered to
`base_radius + 1000` = 3000 m — not to the 2000 m target radius that the
municipal wide-radius output is filtered to — before concatenation and
deduplication. -/
theorem govmap_filter_radius_amended (P : Providers) (lat lon : ℚ) (s : Shelter) :
    (s ∈ govNear P ↔ s ∈ P.govmap 5000 ∧ s.distance ≤ 2000 + 1000) ∧
      (s ∈ muniNear P ↔ s ∈ P.municipal 5000 ∧ s.distance ≤ 2000) ∧
      base_shelters P lat lon =
        deduplicate_shelters
          (taShelters P lat lon ++ muniNear P ++ govNear P ++ P.osm 2000) 50 ∧
      fetch_shelters P lat lon =
        (((fetch_loop P lat lon [3000, 5000] (base_shelters P lat lon)).1).mergeSort
          distLe).take MAX_RESULTS := by
  refine ⟨?_, ?_, rfl, rfl⟩
  · simp [govNear, List.mem_filter]
  · simp [muniNear, List.mem_filter]

/-! ### Python semantics helpers

The connectors parse untrusted JSON payloads with Python dict/string
operations that can raise (`KeyError`, `AttributeError`, `TypeError`); the
helpers below model those operations over `JsonV`, with `Except PyErr`
for the raising ones. -/

/-- A Python exception escaping an expression of the embedded code. -/
inductive PyErr where
  | attributeError : String → PyErr
  | keyError : String → PyErr
  | typeError : String → PyErr
  | runtimeError : String → PyErr
deriving DecidableEq

/-- Python truthiness of a JSON value. -/
def JsonV.truthy : JsonV → Bool
  | .null => false
  | .bool b => b
  | .num q => decide (q ≠ 0)
  | .str s => !s.isEmpty
  | .arr l => !l.isEmpty
  | .obj l => !l.isEmpty

/-- Python `a or b`: the first truthy operand, else the last. -/
def pyOr (a b : JsonV) : JsonV := if a.truthy then a else b

/-- `d.get(key, dflt)`: `AttributeError` unless `d` is a dict. -/
def pyGetD (v : JsonV) (key : String) (dflt : JsonV) : Except PyErr JsonV :=
  match v with
  | .obj l =>
    match l.lookup key with
    | some x => .ok x
    | none => .ok dflt
  | _ => .error (.attributeError ("get"))

/-- `d.get(key)` (default `None`). -/
def pyGet (v : JsonV) (key : String) : Except PyErr JsonV := pyGetD v key .null

/-- `d[key]`: `KeyError` when missing, `TypeError` on a non-dict. -/
def pyIndex (v : JsonV) (key : String) : Except PyErr JsonV :=
  match v with
  | .obj l =>
    match l.lookup key with
    | some x => .ok x
    | none => .error (.keyError key)
  | _ => .error (.typeError ("not subscriptable"))

/-- Python `str.strip()` (whitespace trim), implemented over the character
list so that it evaluates by kernel reduction. -/
def pyTrim (s : String) : String :=
  String.mk (((s.data.dropWhile Char.isWhitespace).reverse.dropWhile
    Char.isWhitespace).reverse)

/-- `.strip()` on a value that must be a string. -/
def pyStrip (v : JsonV) : Except PyErr String :=
  match v with
  | .str s => .ok (pyTrim s)
  | _ => .error (.attributeError ("strip"))

/-- Python `str(x)` (total); the exact rendering of compound values is
irrelevant to every claim and is approximated. -/
def pyStr : JsonV → String
  | .null => "None"
  | .bool true => "True"
  | .bool false => "False"
  | .num q => if q.den = 1 then toString q.num else toString q
  | .str s => s
  | .arr _ => "[...]"
  | .obj _ => "\x7b...\x7d"

/-- Coercion of a JSON value used as a number (e.g. by `haversine` or
`abs`); Python bools are numbers, everything else raises `TypeError`. -/
def pyToRat (v : JsonV) : Except PyErr ℚ :=
  match v with
  | .num q => .ok q
  | .bool b => .ok (if b then 1 else 0)
  | _ => .error (.typeError ("not a number"))

/-- Python iteration `for x in v`: lists iterate elements, strings iterate
characters, dicts iterate keys, everything else raises `TypeError`. -/
def pyIter (v : JsonV) : Except PyErr (List JsonV) :=
  match v with
  | .arr l => .ok l
  | .str s => .ok (s.data.map (fun c => .str (String.mk [c])))
  | .obj l => .ok (l.map (fun p => .str p.1))
  | _ => .error (.typeError ("not iterable"))

def strInAux (pat : List Char) : List Char → Bool
  | [] => pat.isEmpty
  | c :: rest => pat.isPrefixOf (c :: rest) || strInAux pat rest

/-- Python substring test `pat in s`. -/
def strIn (pat s : String) : Bool := strInAux pat.data s.data

/-- Python `key in v`: dict key membership, list element membership,
substring test on strings; `TypeError` otherwise. -/
def pyContainsStr (v : JsonV) (s : String) : Except PyErr Bool :=
  match v with
  | .obj l => .ok (l.any (fun p => p.1 == s))
  | .arr l => .ok (l.any (fun x => match x with | .str t => t == s | _ => false))
  | .str t => .ok (strIn s t)
  | _ => .error (.typeError ("argument not iterable"))

lemma pyToRat_truthy_ne_zero {v : JsonV} {q : ℚ}
    (ht : v.truthy = true) (h : pyToRat v = .ok q) : q ≠ 0 := by
  cases v with
  | null => simp [pyToRat] at h
  | bool b =>
    cases b
    · simp [JsonV.truthy] at ht
    · simp [pyToRat] at h
      subst h
      norm_num
  | num r =>
    simp [JsonV.truthy] at ht
    simp [pyToRat] at h
    subst h
    exact ht
  | str s => simp [pyToRat] at h
  | arr l => simp [pyToRat] at h
  | obj l => simp [pyToRat] at h

lemma except_bind_ok {α β : Type} {x : Except PyErr α} {f : α → Except PyErr β}
    {b : β} (h : (x >>= f) = .ok b) : ∃ a, x = .ok a ∧ f a = .ok b := by
  cases x with
  | error e => simp [Bind.bind, Except.bind] at h
  | ok a => exact ⟨a, rfl, by simpa [Bind.bind, Except.bind] using h⟩

/-! ### The municipal connector (lines 759-871) -/

/-- One entry of the `MUNICIPAL_ARCGIS` registry: name and coverage
bounding box `(min_lat, min_lon, max_lat, max_lon)`. -/
structure Endpoint where
  name : String
  bbox : ℚ × ℚ × ℚ × ℚ
deriving DecidableEq

/-- `_in_bbox` (lines 761-764). -/
def in_bbox (lat lon : ℚ) (bbox : ℚ × ℚ × ℚ × ℚ) (margin : ℚ) : Bool :=
  decide (bbox.1 - margin ≤ lat) && decide (lat ≤ bbox.2.2.1 + margin) &&
    decide (bbox.2.1 - margin ≤ lon) && decide (lon ≤ bbox.2.2.2 + margin)

def addrKeys : List String :=
  ["Full_Address", "כתובת", "Adress", "adress", "ADDRESS", "ShelterAddress",
    "o_adress"]

def nameKeys : List String :=
  ["name", "Name", "shem", "ShelterName", "ID", "מקלט", "o_name", "place",
    "Miklat_Num"]

/-- Address probing loop (lines 779-785): `(a.get(key) or "").strip()`,
first non-trivial hit wins. -/
def probeAddr (a : JsonV) : List String → Except PyErr String
  | [] => .ok ""
  | k :: rest => do
    let v0 ← pyGetD a k .null
    let v ← pyStrip (pyOr v0 (.str ""))
    if v ≠ "" ∧ v ≠ " " then .ok v else probeAddr a rest

/-- Name probing loop (lines 792-798): `str(a.get(key) or "").strip()`. -/
def probeName (a : JsonV) : List String → Except PyErr String
  | [] => .ok ""
  | k :: rest => do
    let v0 ← pyGetD a k .null
    let v := pyTrim (pyStr (pyOr v0 (.str "")))
    if v ≠ "" ∧ v ≠ " " ∧ v ≠ "None" then .ok v else probeName a rest

/-- The non-coordinate fields of a parsed municipal record. -/
structure MuniFields where
  sid : String
  addr : String
  name : String
  type_raw : JsonV
  hours : String
  notes : String

/-- Attribute probing of `_parse_municipal_feature` (lines 778-819):
address, name, type, stable id, hours, notes. -/
def municipalFields (a : JsonV) (source_name : String) :
    Except PyErr MuniFields := do
  let addr0 ← probeAddr a addrKeys
  let addr ←
    (if addr0 = "" then do
      let r1 ← pyGetD a ("shem_recho") .null
      let r2 ← pyGetD a ("STREETNAME") .null
      let street ← pyStrip (pyOr (pyOr r1 r2) (.str ""))
      let b1 ← pyGetD a ("ms_bait") .null
      let b2 ← pyGetD a ("HOUSE") .null
      let house := pyTrim (pyStr (pyOr (pyOr b1 b2) (.str "")))
      Except.ok (pyTrim (street ++ " " ++ house))
    else Except.ok addr0)
  let name0 ← probeName a nameKeys
  let name := if name0 = "" then "מקלט (" ++ source_name ++ ")" else name0
  let t1 ← pyGetD a ("t_sug") .null
  let t2 ← pyGetD a ("LayerNa") .null
  let t3 ← pyGetD a ("שימוש_ראשי") .null
  let t4 ← pyGetD a ("place") .null
  let type_raw := pyOr t1 (pyOr t2 (pyOr t3 (pyOr t4 (.str ("bomb_shelter")))))
  let o1 ← pyGetD a ("OBJECTID") .null
  let o2 ← pyGetD a ("OBJECTID_1") .null
  let o3 ← pyGetD a ("FID") .null
  let oid := pyOr o1 (pyOr o2 (pyOr o3 (.str "")))
  let ho ← pyGetD a ("opening_times") .null
  let hours := match ho with | .str s => pyTrim s | _ => ""
  let n1 ← pyGetD a ("הערות") .null
  let n2 ← pyGetD a ("hearot") .null
  let n3 ← pyGetD a ("Comments") .null
  let notes := match pyOr n1 (pyOr n2 n3) with | .str s => pyTrim s | _ => ""
  .ok ⟨"muni:" ++ source_name ++ ":" ++ pyStr oid, addr, name, type_raw, hours, notes⟩

/-- Shallow embedding of `_parse_municipal_feature` (lines 767-822).
Returns `none` for a dropped feature (falsy coordinates or `|lat| < 1`),
`some` record otherwise; raises like the Python code on malformed
attribute values. -/
noncomputable def _parse_municipal_feature (feat : JsonV) (ulat ulon : ℚ)
    (source_name : String) : Except PyErr (Option Shelter) := do
  let g ← pyGetD feat ("geometry") (.obj [])
  let a ← pyGetD feat ("attributes") (.obj [])
  let slatV ← pyGet g ("y")
  let slonV ← pyGet g ("x")
  if !slatV.truthy || !slonV.truthy then
    return none
  else do
    let slat ← pyToRat slatV
    if |slat| < 1 then
      return none
    else do
      let slon ← pyToRat slonV
      let fl ← municipalFields a source_name
      return some ⟨fl.sid, slat, slon,
        (if fl.addr = "" then fl.name ++ ", " ++ source_name else fl.addr),
        fl.name, fl.type_raw, fl.hours, "", fl.notes,
        round (haversine (ulat : ℝ) (ulon : ℝ) (slat : ℝ) (slon : ℝ)), "muni"⟩

/-- The per-feature loop of one endpoint (lines 862-865): parsed records
within the radius are appended; an exception caught by the per-endpoint
`try` keeps the records appended before it. -/
noncomputable def municipalFeatures (lat lon : ℚ) (radius : ℕ) (epname : String) :
    List JsonV → List Shelter
  | [] => []
  | f :: rest =>
    match _parse_municipal_feature f lat lon epname with
    | .error _ => []
    | .ok none => municipalFeatures lat lon radius epname rest
    | .ok (some s) =>
      if s.distance ≤ (radius : ℤ) then
        s :: municipalFeatures lat lon radius epname rest
      else municipalFeatures lat lon radius epname rest

/-- One endpoint of `fetch_shelters_municipal` (lines 854-869): the whole
request/parse block is inside a per-endpoint `try`, so any failure only
truncates this endpoint's contribution. -/
noncomputable def municipalEndpoint (resp : Except String JsonV) (lat lon : ℚ)
    (radius : ℕ) (epname : String) : List Shelter :=
  match resp with
  | .error _ => []
  | .ok data =>
    match pyContainsStr data ("error") with
    | .error _ => []
    | .ok true => []
    | .ok false =>
      match pyGetD data ("features") (.arr []) with
      | .error _ => []
      | .ok fv =>
        match pyIter fv with
        | .error _ => []
        | .ok feats => municipalFeatures lat lon radius epname feats

/-- Shallow embedding of `fetch_shelters_municipal` (lines 825-871),
parameterized by the endpoint registry and by each endpoint's transport
result; instrumented with the list of endpoints actually queried. -/
noncomputable def fetch_shelters_municipal (eps : List Endpoint)
    (resp : String → Except String JsonV) (lat lon : ℚ) (radius : ℕ) :
    List Shelter × List Endpoint :=
  let relevant := eps.filter (fun ep => in_bbox lat lon ep.bbox 0.05)
  if relevant.isEmpty then ([], [])
  else
    (relevant.foldr
      (fun ep acc => municipalEndpoint (resp ep.name) lat lon radius ep.name ++ acc)
      [], relevant)

/-- C9: an endpoint whose margin-expanded bounding box does not contain
the query coordinate is never queried, and when no endpoint's expanded
box contains the coordinate the connector returns empty without error. -/
theorem municipal_bbox_gate (eps : List Endpoint)
    (resp : String → Except String JsonV) (lat lon : ℚ) (radius : ℕ) :
    (∀ ep ∈ eps, ¬ in_bbox lat lon ep.bbox 0.05 = true →
      ep ∉ (fetch_shelters_municipal eps resp lat lon radius).2) ∧
    ((∀ ep ∈ eps, ¬ in_bbox lat lon ep.bbox 0.05 = true) →
      fetch_shelters_municipal eps resp lat lon radius = ([], [])) := by
  constructor
  · intro ep hep hout hmem
    unfold fetch_shelters_municipal at hmem
    by_cases h : (eps.filter (fun e => in_bbox lat lon e.bbox 0.05)).isEmpty
    · rw [if_pos h] at hmem
      simp at hmem
    · rw [if_neg h] at hmem
      exact hout (List.mem_filter.mp hmem).2
  · intro hall
    unfold fetch_shelters_municipal
    have h : eps.filter (fun e => in_bbox lat lon e.bbox 0.05) = [] :=
      List.filter_eq_nil_iff.mpr (fun e he => by simpa using hall e he)
    rw [h]
    rfl

def holonEp : Endpoint := ⟨"Holon", (31.98, 34.73, 32.06, 34.80)⟩

/-- Witness for C9: the Holon endpoint's bounding box (expanded by the
0.05 degree margin) excludes the coordinate (0, 0); the connector makes no
query and returns empty. -/
theorem municipal_bbox_gate_witness :
    (¬ in_bbox 0 0 holonEp.bbox 0.05 = true) ∧
      holonEp ∉ (fetch_shelters_municipal [holonEp] (fun _ => .error ("down")) 0 0 2000).2 ∧
      fetch_shelters_municipal [holonEp] (fun _ => .error ("down")) 0 0 2000 = ([], []) := by
  have hout : ¬ in_bbox 0 0 holonEp.bbox 0.05 = true := by
    intro h
    simp only [in_bbox, holonEp, Bool.and_eq_true, decide_eq_true_eq] at h
    norm_num at h
  refine ⟨hout, ?_, ?_⟩
  · exact (municipal_bbox_gate [holonEp] (fun _ => .error ("down")) 0 0 2000).1
      holonEp (List.mem_singleton.mpr rfl) hout
  · exact (municipal_bbox_gate [holonEp] (fun _ => .error ("down")) 0 0 2000).2
      (fun e he => by rw [List.mem_singleton.mp he]; exact hout)

/-- A municipal feature carrying wildly invalid coordinates (500, 500). -/
def cfeat : JsonV :=
  .obj [("geometry", .obj [("y", .num 500), ("x", .num 500)]),
    ("attributes", .obj [("OBJECTID", .num 7), ("name", .str ("Bad"))])]

/-- C5 counterexample: `_parse_municipal_feature` accepts the feature with
latitude 500 and longitude 500 — far outside ±90/±180 — and emits a
record with those coordinates: the parser checks only truthiness and
`abs(lat) >= 1`, never coordinate-range validity. -/
theorem coordinate_validity_counterexample :
    Except.map (Option.map Shelter.lat)
        (_parse_municipal_feature cfeat 32 34.8 ("X")) = .ok (some 500) ∧
      ¬ ((500 : ℚ) ≤ 90) := by
  constructor
  · rfl
  · norm_num

/-- C5 (amended): every record emitted by the municipal parser has
coordinates that are truthy (nonzero) with `|lat| ≥ 1`; no ±90/±180
range validation is performed (out-of-range coordinates propagate, see
the counterexample). -/
theorem coordinate_validity_amended (feat : JsonV) (ulat ulon : ℚ)
    (srcn : String) (s : Shelter)
    (h : _parse_municipal_feature feat ulat ulon srcn = .ok (some s)) :
    s.lat ≠ 0 ∧ s.lon ≠ 0 ∧ 1 ≤ |s.lat| := by
  unfold _parse_municipal_feature at h
  obtain ⟨g, hg, h⟩ := except_bind_ok h
  obtain ⟨a, ha, h⟩ := except_bind_ok h
  obtain ⟨slatV, hslatV, h⟩ := except_bind_ok h
  obtain ⟨slonV, hslonV, h⟩ := except_bind_ok h
  by_cases htr : (!slatV.truthy || !slonV.truthy) = true
  · rw [if_pos htr] at h
    simp [Pure.pure, Except.pure] at h
  · rw [if_neg htr] at h
    obtain ⟨slat, hslat, h⟩ := except_bind_ok h
    by_cases habs : |slat| < 1
    · rw [if_pos habs] at h
      simp [Pure.pure, Except.pure] at h
    · rw [if_neg habs] at h
      obtain ⟨slon, hslon, h⟩ := except_bind_ok h
      obtain ⟨fl, hfl, h⟩ := except_bind_ok h
      simp only [Pure.pure, Except.pure, Except.ok.injEq, Option.some.injEq] at h
      subst h
      simp only [Bool.or_eq_true, Bool.not_eq_true', not_or, Bool.not_eq_false] at htr
      have hlat1 : (1 : ℚ) ≤ |slat| := not_lt.mp habs
      refine ⟨?_, ?_, hlat1⟩
      · intro h0
        have h0' : slat = 0 := h0
        rw [h0', abs_zero] at hlat1
        exact absurd hlat1 (by norm_num)
      · exact pyToRat_truthy_ne_zero htr.2 hslon

/-- A well-formed municipal feature. -/
def wfeat : JsonV :=
  .obj [("geometry", .obj [("y", .num 32), ("x", .num 35)]),
    ("attributes", .obj [("OBJECTID", .num 3), ("name", .str ("OK"))])]

/-- The record `_parse_municipal_feature` produces for `wfeat`. -/
noncomputable def wrec : Shelter :=
  ⟨"muni:" ++ "H" ++ ":" ++ pyStr (JsonV.num 3), 32, 35, "OK" ++ ", " ++ "H",
    "OK", JsonV.str ("bomb_shelter"), "", "", "",
    round (haversine ((32 : ℚ) : ℝ) ((34 : ℚ) : ℝ) ((32 : ℚ) : ℝ) ((35 : ℚ) : ℝ)),
    "muni"⟩

/-- Witness for C5 (amended) at the concrete feature `wfeat`. -/
theorem coordinate_validity_amended_witness :
    _parse_municipal_feature wfeat 32 34 ("H") = .ok (some wrec) ∧
      wrec.lat ≠ 0 ∧ wrec.lon ≠ 0 ∧ 1 ≤ |wrec.lat| := by
  have h : _parse_municipal_feature wfeat 32 34 ("H") = .ok (some wrec) := rfl
  exact ⟨h, coordinate_validity_amended wfeat 32 34 ("H") wrec h⟩

/-! ### The OSM (Overpass) connector, lines 620-694 -/

/-- One element of the Overpass response (lines 658-691): skipped (`none`)
on falsy coordinates, otherwise a record; raises like the Python loop on
structurally malformed elements (the loop runs outside the `try`). -/
noncomputable def osmElement (lat lon : ℚ) (el : JsonV) :
    Except PyErr (Option Shelter) := do
  let latRaw ← pyGet el ("lat")
  let slatV ← (if latRaw.truthy then Except.ok latRaw else do
    let c ← pyGetD el ("center") (.obj [])
    pyGet c ("lat"))
  let lonRaw ← pyGet el ("lon")
  let slonV ← (if lonRaw.truthy then Except.ok lonRaw else do
    let c ← pyGetD el ("center") (.obj [])
    pyGet c ("lon"))
  if !slatV.truthy || !slonV.truthy then
    return none
  else do
    let tags ← pyGetD el ("tags") (.obj [])
    let nameV ← pyGetD tags ("name") (.str "")
    let name ← pyStrip nameV
    let addr0 ← pyGetD tags ("addr:street") (.str "")
    let house ← pyGetD tags ("addr:housenumber") (.str "")
    let addrV ← (if addr0.truthy && house.truthy then
        Except.ok (JsonV.str (pyStr addr0 ++ " " ++ pyStr house))
      else if !addr0.truthy then do
        let af ← pyGetD tags ("addr:full") (.str "")
        Except.ok (pyOr af (.str name))
      else Except.ok addr0)
    let st ← pyGetD tags ("shelter_type") (.str "")
    let bt ← pyGetD tags ("bunker_type") (.str "")
    let bd ← pyGetD tags ("building") (.str "")
    let type_raw := pyOr st (pyOr bt (pyOr bd (.str ("bomb_shelter"))))
    let tyV ← pyIndex el ("type")
    let idV ← pyIndex el ("id")
    let addrS ← pyStrip addrV
    let desc ← pyGetD tags ("description") (.str "")
    let addressV := pyOr (.str addrS) (pyOr desc (.str ("מקלט")))
    let hoV ← pyGetD tags ("opening_hours") (.str "")
    let hours ← pyStrip hoV
    let phV ← pyGetD tags ("phone") (.str "")
    let phone ← pyStrip phV
    let ntV ← pyGetD tags ("note") (.str "")
    let nt ← pyStrip ntV
    let dsV ← pyGetD tags ("description") (.str "")
    let ds ← pyStrip dsV
    let notes := if nt ≠ "" then nt else ds
    let slat ← pyToRat slatV
    let slon ← pyToRat slonV
    return some ⟨"osm:" ++ pyStr tyV ++ ":" ++ pyStr idV, slat, slon,
      pyStr addressV, name, type_raw, hours, phone, notes,
      round (haversine (lat : ℝ) (lon : ℝ) (slat : ℝ) (slon : ℝ)), "osm"⟩

/-- The element loop of `fetch_shelters_osm` (lines 658-691). -/
noncomputable def osmElements (lat lon : ℚ) : List JsonV → Except PyErr (List Shelter)
  | [] => .ok []
  | el :: rest => do
    let s ← osmElement lat lon el
    let others ← osmElements lat lon rest
    match s with
    | none => .ok others
    | some sh => .ok (sh :: others)

/-- Shallow embedding of `fetch_shelters_osm` (lines 620-694).  The `try`
covers only the HTTP request and JSON decode (649-655), modelled by the
`resp` argument; the parse loop runs outside it, so a parse failure
propagates out of the function (an `.error` result). -/
noncomputable def fetch_shelters_osm (resp : Except String JsonV) (lat lon : ℚ) :
    Except PyErr (List Shelter) :=
  match resp with
  | .error _ => .ok []
  | .ok data => do
    let elemsV ← pyGetD data ("elements") (.arr [])
    let elems ← pyIter elemsV
    let shelters ← osmElements lat lon elems
    .ok (shelters.mergeSort distLe)

/-! ### The Tel-Aviv ArcGIS connector, lines 699-756 -/

/-- Shallow embedding of `parse_shelter_arcgis` (lines 699-717). -/
noncomputable def parse_shelter_arcgis (feat : JsonV) (ulat ulon : ℚ) :
    Except PyErr Shelter := do
  let g ← pyGetD feat ("geometry") (.obj [])
  let a ← pyGetD feat ("attributes") (.obj [])
  let gy ← pyGet g ("y")
  let slatV ← (if gy.truthy then Except.ok gy else pyGet a ("lat"))
  let gx ← pyGet g ("x")
  let slonV ← (if gx.truthy then Except.ok gx else pyGet a ("lon"))
  let faV ← pyGetD a ("Full_Address") .null
  let addr0 ← pyStrip (pyOr faV (.str ""))
  let addr ← (if addr0 = "" then do
      let sr ← pyGetD a ("shem_recho") .null
      let street ← pyStrip (pyOr sr (.str ""))
      let mb ← pyGetD a ("ms_bait") .null
      let house := pyTrim (pyStr (pyOr mb (.str "")))
      let c := pyTrim (street ++ " " ++ house)
      Except.ok (if c = "" then "כתובת לא ידועה" else c)
    else Except.ok addr0)
  let uid ← pyGetD a ("UniqueId") .null
  let om ← pyGetD a ("oid_mitkan") (.str "")
  let idv := pyOr uid (.str (pyStr om))
  let shm ← pyGetD a ("shem") .null
  let name ← pyStrip (pyOr shm (.str ""))
  let tr ← pyGetD a ("t_sug") (.str "")
  let ot ← pyGetD a ("opening_times") .null
  let hours ← pyStrip (pyOr ot (.str ""))
  let th ← pyGetD a ("telephone_henion") .null
  let cel ← pyGetD a ("celolar") .null
  let phone ← pyStrip (pyOr th (pyOr cel (.str "")))
  let he ← pyGetD a ("hearot") .null
  let notes ← pyStrip (pyOr he (.str ""))
  let slat ← pyToRat slatV
  let slon ← pyToRat slonV
  .ok ⟨"ta:" ++ pyStr idv, slat, slon, addr, name, tr, hours, phone, notes,
    round (haversine (ulat : ℝ) (ulon : ℝ) (slat : ℝ) (slon : ℝ)), "ta"⟩

/-- The fallback filter of `fetch_shelters_arcgis` (lines 747-751):
features with truthy geometry within `SEARCH_RADIUS_M` of the query. -/
noncomputable def arcgisFilter (lat lon : ℚ) : List JsonV → Except PyErr (List JsonV)
  | [] => .ok []
  | f :: rest => do
    let g ← pyGetD f ("geometry") (.obj [])
    let keep ← (if g.truthy then do
        let gy ← pyGetD g ("y") (.num 0)
        let gx ← pyGetD g ("x") (.num 0)
        let y ← pyToRat gy
        let x ← pyToRat gx
        Except.ok (decide (haversine (lat : ℝ) (lon : ℝ) (y : ℝ) (x : ℝ) ≤ 2000))
      else Except.ok false)
    let rest2 ← arcgisFilter lat lon rest
    .ok (if keep then f :: rest2 else rest2)

/-- The parse comprehension of line 753:
`[parse_shelter_arcgis(f, lat, lon) for f in features if f.get("geometry")]`. -/
noncomputable def arcgisParseAll (lat lon : ℚ) : List JsonV → Except PyErr (List Shelter)
  | [] => .ok []
  | f :: rest => do
    let g ← pyGetD f ("geometry") (.obj [])
    if g.truthy then do
      let s ← parse_shelter_arcgis f lat lon
      let rest2 ← arcgisParseAll lat lon rest
      .ok (s :: rest2)
    else arcgisParseAll lat lon rest

/-- The body of the `try` of `fetch_shelters_arcgis` (lines 730-753):
spatial query, explicit `raise RuntimeError` on an error payload, fallback
full scan with client-side radius filter, then per-feature parsing. -/
noncomputable def arcgisBody (resp1 resp2 : Except String JsonV) (lat lon : ℚ) :
    Except PyErr (List Shelter) := do
  let data ← (match resp1 with
    | .error e => Except.error (PyErr.runtimeError e)
    | .ok d => Except.ok d)
  let hasErr ← pyContainsStr data ("error")
  if hasErr then Except.error (PyErr.runtimeError ("error in data"))
  else do
    let featsV ← pyGetD data ("features") (.arr [])
    let feats ← pyIter featsV
    let feats2 ← (if feats.isEmpty then do
        let data2 ← (match resp2 with
          | .error e => Except.error (PyErr.runtimeError e)
          | .ok d => Except.ok d)
        let f2V ← pyGetD data2 ("features") (.arr [])
        let f2 ← pyIter f2V
        arcgisFilter lat lon f2
      else Except.ok feats)
    arcgisParseAll lat lon feats2

/-- Shallow embedding of `fetch_shelters_arcgis` (lines 720-756): the whole
body runs inside `try ... except Exception: return []`, so every failure is
recovered to an empty list at the boundary. -/
noncomputable def fetch_shelters_arcgis (resp1 resp2 : Except String JsonV)
    (lat lon : ℚ) : Except PyErr (List Shelter) :=
  match arcgisBody resp1 resp2 lat lon with
  | .ok l => .ok l
  | .error _ => .ok []

/-! ### The GovMap connector (lines 497-615) -/

mutual
/-- Structural equality of JSON values (Python `==` / dict-key equality). -/
def JsonV.eqb : JsonV → JsonV → Bool
  | .null, .null => true
  | .bool a, .bool b => a == b
  | .num a, .num b => a == b
  | .str a, .str b => a == b
  | .arr a, .arr b => JsonV.eqbL a b
  | .obj a, .obj b => JsonV.eqbO a b
  | _, _ => false

def JsonV.eqbL : List JsonV → List JsonV → Bool
  | [], [] => true
  | x :: xs, y :: ys => JsonV.eqb x y && JsonV.eqbL xs ys
  | _, _ => false

def JsonV.eqbO : List (String × JsonV) → List (String × JsonV) → Bool
  | [], [] => true
  | (k, v) :: xs, (k2, v2) :: ys => k == k2 && JsonV.eqb v v2 && JsonV.eqbO xs ys
  | _, _ => false
end

/-- `_HE_SPELLING_VARIANTS` (lines 498-506). -/
def HE_SPELLING_VARIANTS : List (String × String) :=
  [("קרית", "קריית"), ("קריית", "קרית"), ("גבעת", "גבעות"), ("גבעות", "גבעת"),
    ("–", "-"), ("-", "–"), ("תל אביב–יפו", "תל אביב-יפו")]

/-- Python `str.replace` (replace every occurrence), over character lists. -/
def listReplace (pat rep : List Char) : List Char → List Char
  | [] => []
  | c :: rest =>
    if h : pat ≠ [] ∧ pat.isPrefixOf (c :: rest) = true then
      rep ++ listReplace pat rep ((c :: rest).drop pat.length)
    else
      c :: listReplace pat rep rest
termination_by l => l.length
decreasing_by
  · have hp : 0 < pat.length := List.length_pos.mpr h.1
    simp [List.length_drop]
    omega
  · simp

def pyReplace (s pat rep : String) : String :=
  String.mk (listReplace pat.data rep.data s.data)

/-- Candidate-name expansion with spelling variants (lines 529-537). -/
def expandOne (expanded : List String) (nm : String) : List String :=
  HE_SPELLING_VARIANTS.foldl
    (fun acc p =>
      if strIn p.1 nm then
        (let variant := pyReplace nm p.1 p.2
         if variant ∈ acc then acc else acc ++ [variant])
      else acc)
    (expanded ++ [nm])

def expandVariants (names : List String) : List String := names.foldl expandOne []

/-- A GovMap record as cached per city (lines 590-599); the `distance`
field is only added to the copies returned per query (lines 610-611). -/
structure GovRec where
  id : String
  lat : ℚ
  lon : ℚ
  address : String
  name : String
  type_raw : JsonV
  hours : String
  phone : String
  notes : String
  source : String

/-- `_govmap_cache` (line 510): resolved place name to the fetched records
keyed by raw `ObjectID`, in insertion order. -/
abbrev GovCache := List (String × List (JsonV × GovRec))

/-- `oid in <dict>` over the association-list model. -/
def oidMem (oid : JsonV) (l : List (JsonV × GovRec)) : Bool :=
  l.any (fun p => JsonV.eqb p.1 oid)

/-- Merging a cached city into `all_cached` (lines 546-548): keep the
first record seen per `ObjectID`. -/
def addEntries (acc : List (JsonV × GovRec)) :
    List (JsonV × GovRec) → List (JsonV × GovRec)
  | [] => acc
  | (oid, r) :: rest =>
    if oidMem oid acc then addEntries acc rest
    else addEntries (acc ++ [(oid, r)]) rest

/-- Splitting candidate names into cached entries (merged in order into
`all_cached`) and `cities_to_fetch` (lines 542-550). -/
def collectCached (cache : GovCache) (acc : List (JsonV × GovRec))
    (toFetch : List String) : List String → List (JsonV × GovRec) × List String
  | [] => (acc, toFetch)
  | c :: rest =>
    match List.lookup c cache with
    | some entries => collectCached cache (addEntries acc entries) toFetch rest
    | none => collectCached cache acc (toFetch ++ [c]) rest

/-- The four query patterns of line 557. -/
def govPrefixes : List String := ["מקלט", "מקלט ציבורי", "מקלט מספר", "מקלט מס"]

/-- One search hit (lines 573-599): `none` when skipped (duplicate
`ObjectID`, falsy ITM coordinates, failed reprojection), otherwise the
cached record; raises on structurally malformed items (the result loop
runs outside the per-request `try`). -/
def govItem (conv : ℚ → ℚ → Option (ℚ × ℚ)) (city : String)
    (cur allCached : List (JsonV × GovRec)) (item : JsonV) :
    Except PyErr (Option (JsonV × GovRec)) := do
  let oid ← pyGet item ("ObjectID")
  if oidMem oid cur || oidMem oid allCached then
    return none
  else do
    let xV ← pyGet item ("X")
    let yV ← pyGet item ("Y")
    if !xV.truthy || !yV.truthy then
      return none
    else do
      let x ← pyToRat xV
      let y ← pyToRat yV
      match conv x y with
      | none => return none
      | some (slat, slon) => do
        let labelV ← pyGetD item ("ResultLable") (.str "")
        let label ← (match labelV with
          | .str s => Except.ok s
          | _ => Except.error (PyErr.attributeError ("split")))
        let parts := (List.splitOn '|' label.data).map String.mk
        let nm := (match parts with
          | [] => "מקלט"
          | p :: _ => pyTrim p)
        let loc := (match parts with
          | _ :: p2 :: _ => pyTrim p2
          | _ => city)
        return some (oid, ⟨"gov:" ++ pyStr oid, slat, slon, nm ++ ", " ++ loc,
          nm, .str ("bomb_shelter"), "", "", "", "gov"⟩)

/-- The result loop for one query (lines 573-599). -/
def govItems (conv : ℚ → ℚ → Option (ℚ × ℚ)) (city : String)
    (allCached : List (JsonV × GovRec)) (cur : List (JsonV × GovRec)) :
    List JsonV → Except PyErr (List (JsonV × GovRec))
  | [] => .ok cur
  | it :: rest => do
    let r ← govItem conv city cur allCached it
    match r with
    | none => govItems conv city allCached cur rest
    | some p => govItems conv city allCached (cur ++ [p]) rest

/-- The per-city query loop (lines 554-599): for each of the four query
patterns a transport or JSON failure is caught (`continue`), while a parse
failure in the result loop propagates.  Also returns the list of queries
actually issued. -/
def govCityQueries (search : String → Except String JsonV)
    (conv : ℚ → ℚ → Option (ℚ × ℚ)) (city : String)
    (allCached : List (JsonV × GovRec)) :
    List String → List String → List (JsonV × GovRec) →
      Except PyErr (List (JsonV × GovRec)) × List String
  | [], _, cur => (.ok cur, [])
  | pre :: rest, seen, cur =>
    let q := pre ++ " " ++ city
    if q ∈ seen then govCityQueries search conv city allCached rest seen cur
    else
      match search q with
      | .error _ =>
        let out := govCityQueries search conv city allCached rest (seen ++ [q]) cur
        (out.1, q :: out.2)
      | .ok j =>
        match (do
            let d ← pyGet j ("data")
            pyGetD (pyOr d (.obj [])) ("Result") (.arr [])) with
        | .error _ =>
          let out := govCityQueries search conv city allCached rest (seen ++ [q]) cur
          (out.1, q :: out.2)
        | .ok resultsV =>
          match pyIter resultsV with
          | .error e => (.error e, [q])
          | .ok items =>
            match govItems conv city allCached cur items with
            | .error e => (.error e, [q])
            | .ok cur2 =>
              let out := govCityQueries search conv city allCached rest (seen ++ [q]) cur2
              (out.1, q :: out.2)

/-- The city fetch loop (lines 553-603), threading `all_cached`, the cache
and the issued queries; a propagated parse error keeps the cache entries of
the cities completed before it (`_govmap_cache[city] = city_shelters` runs
per city at line 601). -/
def govFetchCities (search : String → Except String JsonV)
    (conv : ℚ → ℚ → Option (ℚ × ℚ)) :
    List String → List (JsonV × GovRec) → GovCache → List String →
      Except PyErr (List (JsonV × GovRec)) × GovCache × List String
  | [], allC, cache, queries => (.ok allC, cache, queries)
  | city :: rest, allC, cache, queries =>
    match govCityQueries search conv city allC govPrefixes [] [] with
    | (.error e, qs) => (.error e, cache, queries ++ qs)
    | (.ok cityShelters, qs) =>
      govFetchCities search conv rest (allC ++ cityShelters)
        (cache ++ [(city, cityShelters)]) (queries ++ qs)

/-- The final per-query radius filter, distance annotation and sort
(lines 605-615). -/
noncomputable def govFinalize (lat lon : ℚ) (radius : ℕ)
    (l : List (JsonV × GovRec)) : List Shelter :=
  (l.foldr
    (fun p acc =>
      if haversine (lat : ℝ) (lon : ℝ) (p.2.lat : ℝ) (p.2.lon : ℝ) ≤ (radius : ℝ) then
        (⟨p.2.id, p.2.lat, p.2.lon, p.2.address, p.2.name, p.2.type_raw,
          p.2.hours, p.2.phone, p.2.notes,
          round (haversine (lat : ℝ) (lon : ℝ) (p.2.lat : ℝ) (p.2.lon : ℝ)),
          p.2.source⟩ : Shelter) :: acc
      else acc)
    []).mergeSort distLe

/-- Shallow embedding of `fetch_shelters_govmap` (lines 513-615),
parameterized by the resolved place names (the output of
`reverse_geocode_names`, whose own failures already degrade to a shorter
list), the search transport, the ITM-to-WGS84 reprojection (pyproj,
external to the repository; `none` models its `None` degradation) and the
cache state.  Returns the result (or the propagated exception), the
updated cache and the issued search queries. -/
noncomputable def fetch_shelters_govmap (place_names : List String)
    (search : String → Except String JsonV) (conv : ℚ → ℚ → Option (ℚ × ℚ))
    (cache : GovCache) (lat lon : ℚ) (radius_m : ℕ) :
    Except PyErr (List Shelter) × GovCache × List String :=
  if place_names.isEmpty then (.ok [], cache, [])
  else
    let expanded := expandVariants place_names
    let cc := collectCached cache [] [] expanded
    match govFetchCities search conv cc.2 cc.1 cache [] with
    | (.error e, cache2, qs) => (.error e, cache2, qs)
    | (.ok allFinal, cache2, qs) =>
      (.ok (govFinalize lat lon radius_m allFinal), cache2, qs)

/-! ### C4: connector fault-tolerance boundaries -/

lemma govCityQueries_err_fst (e : String) (conv : ℚ → ℚ → Option (ℚ × ℚ))
    (city : String) (allC : List (JsonV × GovRec)) :
    ∀ (pres seen : List String) (cur : List (JsonV × GovRec)),
      (govCityQueries (fun _ => Except.error e) conv city allC pres seen cur).1 =
        .ok cur := by
  intro pres
  induction pres with
  | nil => intro seen cur; rfl
  | cons pre rest ih =>
    intro seen cur
    simp only [govCityQueries]
    by_cases hq : (pre ++ " " ++ city) ∈ seen
    · rw [if_pos hq]
      exact ih seen cur
    · rw [if_neg hq]
      exact ih (seen ++ [pre ++ " " ++ city]) cur

lemma govFetchCities_err_fst (e : String) (conv : ℚ → ℚ → Option (ℚ × ℚ)) :
    ∀ (cities : List String) (allC : List (JsonV × GovRec)) (cache : GovCache)
      (qs : List String),
      (govFetchCities (fun _ => Except.error e) conv cities allC cache qs).1 =
        .ok allC := by
  intro cities
  induction cities with
  | nil => intro allC cache qs; rfl
  | cons c rest ih =>
    intro allC cache qs
    simp only [govFetchCities]
    have h1 := govCityQueries_err_fst e conv c allC govPrefixes [] []
    rcases hq : govCityQueries (fun _ => Except.error e) conv c allC govPrefixes [] []
      with ⟨r, rqs⟩
    rw [hq] at h1
    simp only at h1
    subst h1
    simp only [List.append_nil]
    exact ih allC (cache ++ [(c, [])]) (qs ++ rqs)

lemma municipalEndpoint_err (e : String) (lat lon : ℚ) (radius : ℕ) (n : String) :
    municipalEndpoint (.error e) lat lon radius n = [] := rfl

lemma collectCached_empty_fst :
    ∀ (l : List String) (acc : List (JsonV × GovRec)) (tf : List String),
      (collectCached [] acc tf l).1 = acc := by
  intro l
  induction l with
  | nil => intro acc tf; rfl
  | cons c rest ih => intro acc tf; exact ih acc (tf ++ [c])

/-- A malformed Overpass payload: `elements` holding a number instead of
an element object. -/
def badOsmResp : JsonV := .obj [("elements", .arr [.num 1])]

/-- C4 counterexample: a structurally malformed (but successfully decoded)
Overpass response makes `fetch_shelters_osm` raise — the element loop runs
outside the `try`, so `el.get("lat")` on a non-dict element propagates an
`AttributeError` past the connector boundary. -/
theorem connector_total_counterexample :
    fetch_shelters_osm (.ok badOsmResp) 32 34.8 =
      .error (PyErr.attributeError ("get")) := rfl

/-- C4 (amended): the Tel-Aviv connector never raises for any upstream
response (its whole body is inside `try/except`); the municipal connector
degrades every endpoint transport failure to an empty contribution; the
OSM and GovMap connectors recover transport and JSON-decode failures to
empty results — but their parse loops run outside the `try`, so they can
raise on structurally malformed payloads (see the counterexample). -/
theorem connector_total_amended :
    (∀ (r1 r2 : Except String JsonV) (lat lon : ℚ),
      ∃ l, fetch_shelters_arcgis r1 r2 lat lon = .ok l) ∧
    (∀ (eps : List Endpoint) (e : String) (lat lon : ℚ) (radius : ℕ),
      (fetch_shelters_municipal eps (fun _ => .error e) lat lon radius).1 = []) ∧
    (∀ (err : String) (lat lon : ℚ),
      fetch_shelters_osm (.error err) lat lon = .ok []) ∧
    (∀ (names : List String) (conv : ℚ → ℚ → Option (ℚ × ℚ)) (e : String)
      (lat lon : ℚ) (r : ℕ),
      (fetch_shelters_govmap names (fun _ => Except.error e) conv [] lat lon r).1 =
        .ok (govFinalize lat lon r [])) := by
  refine ⟨?_, ?_, ?_, ?_⟩
  · intro r1 r2 lat lon
    unfold fetch_shelters_arcgis
    cases arcgisBody r1 r2 lat lon with
    | ok l => exact ⟨l, rfl⟩
    | error er => exact ⟨[], rfl⟩
  · intro eps e lat lon radius
    unfold fetch_shelters_municipal
    by_cases h : (eps.filter (fun ep => in_bbox lat lon ep.bbox 0.05)).isEmpty
    · rw [if_pos h]
    · rw [if_neg h]
      induction eps.filter (fun ep => in_bbox lat lon ep.bbox 0.05) with
      | nil => rfl
      | cons ep rest ih => simpa [municipalEndpoint_err] using ih
  · intro err lat lon
    rfl
  · intro names conv e lat lon r
    unfold fetch_shelters_govmap
    by_cases h : names.isEmpty
    · rw [if_pos h]
      simp [govFinalize]
    · rw [if_neg h]
      have h2 : (collectCached [] [] [] (expandVariants names)).1 = [] :=
        collectCached_empty_fst _ _ _
      have h1 := govFetchCities_err_fst e conv
        (collectCached [] [] [] (expandVariants names)).2
        (collectCached [] [] [] (expandVariants names)).1 [] []
      rcases hf : govFetchCities (fun _ => Except.error e)
          conv (collectCached [] [] [] (expandVariants names)).2
          (collectCached [] [] [] (expandVariants names)).1 [] []
        with ⟨fr, fc, fq⟩
      rw [hf] at h1
      simp only at h1
      rw [h2] at h1
      subst h1
      simp only [hf]

/-! ### C7: the per-place cache of the GovMap connector -/

/-- C7 (amended): for a single resolved name with no spelling variants,
(a) a cached name is served entirely from the cache, filtered by the
query's own radius, with no search issued and the cache unchanged;
(b) an uncached name is fetched (the four prefixed queries), the full
fetched set is stored unfiltered under that name, and the result is that
set filtered by the query's radius.  (Across several candidate names in
one invocation, records whose ObjectID was already collected under an
earlier name are NOT stored under the later name, see the
counterexample.) -/
theorem govmap_cache_amended (search : String → Except String JsonV)
    (conv : ℚ → ℚ → Option (ℚ × ℚ)) (lat lon : ℚ) (radius : ℕ) (nm : String)
    (cache1 cache2 : GovCache) (E cs : List (JsonV × GovRec)) (qs : List String)
    (hexp : expandVariants [nm] = [nm]) :
    (List.lookup nm cache1 = some E →
      fetch_shelters_govmap [nm] search conv cache1 lat lon radius =
        (.ok (govFinalize lat lon radius (addEntries [] E)), cache1, [])) ∧
    (List.lookup nm cache2 = none →
      govCityQueries search conv nm [] govPrefixes [] [] = (.ok cs, qs) →
      fetch_shelters_govmap [nm] search conv cache2 lat lon radius =
        (.ok (govFinalize lat lon radius cs), cache2 ++ [(nm, cs)], qs)) := by
  constructor
  · intro hlk
    have hcc : collectCached cache1 [] [] [nm] = (addEntries [] E, []) := by
      simp only [collectCached, hlk]
    unfold fetch_shelters_govmap
    rw [if_neg (by simp)]
    simp only [hexp, hcc, govFetchCities]
  · intro hlk hq
    have hcc : collectCached cache2 [] [] [nm] = ([], [nm]) := by
      simp only [collectCached, hlk, List.nil_append]
    unfold fetch_shelters_govmap
    rw [if_neg (by simp)]
    simp only [hexp, hcc, govFetchCities, hq, List.nil_append]

def wgrec : GovRec :=
  ⟨"gov:9", 32, 34, "X, K", "X", .str ("bomb_shelter"), "", "", "", "gov"⟩

def wcache : GovCache := [("K", [(JsonV.num 9, wgrec)])]

def wqs : List String :=
  ["מקלט K", "מקלט ציבורי K", "מקלט מספר K", "מקלט מס K"]

/-- Witness for C7 (amended): name "K" (no spelling variants), served from
a one-record cache without queries; and the same name on an empty cache
with a dead search transport: four queries issued, the (empty) fetched set
cached under "K". -/
theorem govmap_cache_amended_witness :
    expandVariants ["K"] = ["K"] ∧
    List.lookup "K" wcache = some [(JsonV.num 9, wgrec)] ∧
    fetch_shelters_govmap ["K"] (fun _ => .error ("dead")) (fun x y => some (x, y))
        wcache 32 34 5000 =
      (.ok (govFinalize 32 34 5000 (addEntries [] [(JsonV.num 9, wgrec)])),
        wcache, []) ∧
    List.lookup "K" ([] : GovCache) = none ∧
    govCityQueries (fun _ => .error ("dead")) (fun x y => some (x, y)) "K" []
        govPrefixes [] [] = (.ok [], wqs) ∧
    fetch_shelters_govmap ["K"] (fun _ => .error ("dead")) (fun x y => some (x, y))
        ([] : GovCache) 32 34 5000 =
      (.ok (govFinalize 32 34 5000 []), [("K", [])], wqs) := by
  have h1 := (govmap_cache_amended (fun _ => .error ("dead"))
    (fun x y => some (x, y)) 32 34 5000 "K" wcache [] [(JsonV.num 9, wgrec)]
    [] wqs rfl).1 rfl
  have h2 := (govmap_cache_amended (fun _ => .error ("dead"))
    (fun x y => some (x, y)) 32 34 5000 "K" wcache [] [(JsonV.num 9, wgrec)]
    [] wqs rfl).2 rfl rfl
  exact ⟨rfl, rfl, h1, rfl, rfl, h2⟩

def citem1 : JsonV :=
  .obj [("ObjectID", .num 1), ("X", .num 100), ("Y", .num 200),
    ("ResultLable", .str ("מקלט 1|A"))]

def citem2 : JsonV :=
  .obj [("ObjectID", .num 2), ("X", .num 101), ("Y", .num 201),
    ("ResultLable", .str ("מקלט 2|B"))]

/-- A search index in which the record with ObjectID 1 is returned both
for place "A" and for place "B". -/
def csearch : String → Except String JsonV := fun q =>
  if q = "מקלט A" then .ok (.obj [("data", .obj [("Result", .arr [citem1])])])
  else if q = "מקלט B" then
    .ok (.obj [("data", .obj [("Result", .arr [citem1, citem2])])])
  else .ok (.obj [("data", .obj [("Result", .arr [])])])

def cconv : ℚ → ℚ → Option (ℚ × ℚ) := fun x y => some (x, y)

def crec1 : GovRec :=
  ⟨"gov:" ++ pyStr (JsonV.num 1), 100, 200, "מקלט 1, A", "מקלט 1",
    .str ("bomb_shelter"), "", "", "", "gov"⟩

def crec2 : GovRec :=
  ⟨"gov:" ++ pyStr (JsonV.num 2), 101, 201, "מקלט 2, B", "מקלט 2",
    .str ("bomb_shelter"), "", "", "", "gov"⟩

/-- C7 counterexample: the first fetch does NOT always store the full set
of records fetched for a name.  When the invocation resolves ["A", "B"]
and the search for "B" returns ObjectIDs 1 and 2, ObjectID 1 (already
collected under "A") is not stored under "B": the cache entry for "B"
holds only ObjectID 2, whereas an invocation resolving just ["B"] stores
both under "B". -/
theorem govmap_cache_full_counterexample :
    List.lookup "B" (fetch_shelters_govmap ["A", "B"] csearch cconv [] 32 34 5000).2.1 =
        some [(JsonV.num 2, crec2)] ∧
      List.lookup "B" (fetch_shelters_govmap ["B"] csearch cconv [] 32 34 5000).2.1 =
        some [(JsonV.num 1, crec1), (JsonV.num 2, crec2)] := by
  constructor
  · rfl
  · rfl

/-- C10: the haversine distance of a coordinate to itself is 0, and
haversine is symmetric in its two coordinate arguments. -/
theorem haversine_zero_symm :
    ∀ lat1 lon1 lat2 lon2 : ℝ,
      haversine lat1 lon1 lat1 lon1 = 0 ∧
        haversine lat1 lon1 lat2 lon2 = haversine lat2 lon2 lat1 lon1 :=
  fun lat1 lon1 lat2 lon2 =>
    ⟨haversine_self lat1 lon1, haversine_comm lat1 lon1 lat2 lon2⟩

end ShelterBot
